import Mathlib

/-!
Verification development for the pulse-generation engine of the RBPiGPIO_AL
repository (files `_PulseAPI.py`, `_PulseSW.py`, `_PulsePiHW.py`, `Pulse.py`,
`tools.py`).  Python floats are modelled as exact rationals (`ℚ`); the claims
under study are about the algorithmic relations between the quantities, not
about binary floating-point rounding.  Methods that mutate `self` and may
raise are modelled as functions returning the mutated object state together
with the raised error, if any (Python leaves the mutations done so far in
place when an exception propagates, and the model preserves that).
-/

set_option allowUnsafeReducibility true

attribute [semireducible] Rat.add Rat.mul Rat.inv Rat.sub Rat.div Rat.neg

deriving instance DecidableEq for Except

namespace GPIOAL

/-- Error kinds raised by the pulse code.  Each constructor corresponds to one
`raise` site (or one Python runtime error) in the source. -/
inductive PulseError
  /-- `GPIOError('Wrong duty cycle specified: ...')` in `_PulseAPI._computeParams`. -/
  | invalidDutyCycle
  /-- Python `ZeroDivisionError` from `1 / self._frequency`. -/
  | zeroDivision
  /-- `GPIOError('Maximal frequency for hardware bursts is 10 kHz')` in `_PulsePiHW.__init__`. -/
  | burstFreqTooHigh
  /-- `GPIOError('Time bursts must last longer than ... s')` in `_PulsePiHW.__init__`. -/
  | burstTooShort
  /-- `GPIOError('frequency ... exceeds max frequency for hardware pulse mode')`. -/
  | hwFreqTooHigh
  /-- `GPIOError('frequency ... below min frequency for hardware pulse mode')`. -/
  | hwFreqTooLow
  /-- `GPIOError('frequency ... exceeds max frequency for software mode')`. -/
  | swFreqTooHigh
  /-- `GPIOError('Cannot set duty cycle during a burst in SW mode')`. -/
  | burstInProgress
  /-- `GPIOError('pulsePin must be in OUTPUT or OPEN_DRAIN mode')` in `_PulseSW.__init__`. -/
  | wrongPinMode
  /-- `GPIOError('Wrong GPIO line specified (GPIO...)')` in `_PulsePiHW.__lineToPWMChannel`. -/
  | unsupportedLine
  /-- `GPIOError` raised when the PWM device directory cannot be materialized. -/
  | deviceUnavailable
  /-- `GPIOError('config.txt was modified since last reboot ...')` in `tools.hwPWMlines`. -/
  | configModified
  /-- Python `AttributeError`: an instance attribute that was never assigned is read. -/
  | attributeError
  /-- Python `NameError`: an undefined bare name is evaluated. -/
  | nameError
  deriving DecidableEq

/-- Result of calling a Python method that mutates `self` and may raise: the
object state after the call (mutations made before a `raise` persist) and the
error that propagated, if any. -/
structure MutResult (σ : Type) where
  state : σ
  err : Option PulseError
  deriving DecidableEq

/-- Digital level of a GPIO line (`PinIO.Level`). -/
inductive Level
  | low
  | high
  deriving DecidableEq

/-- Mode of a caller-supplied `PinIO` object, as far as `_PulseSW.__init__` checks it. -/
inductive PinMode
  | input
  | output
  | openDrain
  deriving DecidableEq

/-- The `pulsePin` constructor argument: either an already-constructed pin
object (with its configured mode) or a pin/line specifier (int or string). -/
inductive PinArg
  | handle (mode : PinMode)
  | spec
  deriving DecidableEq

/-- Fields of `_PulseAPI` assigned by `_computeParams`:
`_bursts`, `_orgFreq`, `_frequency`, `_dutyCycle`, `_period`, `_highTime`,
`_lowTime`.  `_bursts` is `None` or an int. -/
structure ParamState where
  bursts : Option ℤ
  orgFreq : ℚ
  frequency : ℚ
  dutyCycle : ℚ
  period : ℚ
  highTime : ℚ
  lowTime : ℚ
  deriving DecidableEq

/-- Initial contents of the parameter fields before `__init__` runs (the
attributes do not exist yet in Python; they are only ever read after
`_computeParams` assigned them, so the initial values are unobservable). -/
def defaultParams : ParamState :=
  ⟨none, 0, 0, 0, 0, 0, 0⟩

/-- The percentage normalization applied to a supplied duty cycle:
`if dutyCycle > 1 and dutyCycle <= 100: dutyCycle / 100 else dutyCycle`. -/
def pyNormalizeDuty (dutyCycle : ℚ) : ℚ :=
  if 1 < dutyCycle ∧ dutyCycle ≤ 100 then dutyCycle / 100 else dutyCycle

/-- `_PulseAPI._computeParams`.  Mutations happen in source order: `_bursts`,
`_orgFreq`, `_frequency` and `_dutyCycle` are assigned before the duty-cycle
validity check, so they keep their new values when the check raises; `_period`,
`_highTime` and `_lowTime` are assigned only after it.  `1 / self._frequency`
raises `ZeroDivisionError` when the frequency is zero.  (The `frequency.unit`
check only concerns PObject arguments and is outside this numeric model.) -/
def computeParams (s : ParamState) (frequency dutyCycle : ℚ) (bursts : Option ℤ) :
    MutResult ParamState :=
  let s1 : ParamState :=
    { s with bursts := bursts, orgFreq := frequency, frequency := frequency }
  let dc := pyNormalizeDuty dutyCycle
  let s2 : ParamState := { s1 with dutyCycle := dc }
  if dc < 0 ∨ 1 < dc then ⟨s2, some .invalidDutyCycle⟩
  else if frequency = 0 then ⟨s2, some .zeroDivision⟩
  else
    let p := 1 / frequency
    ⟨{ s2 with period := p, highTime := p * dc, lowTime := p * (1 - dc) }, none⟩

/-- The `bursts` read property of `_PulseAPI`: returns `None` when the stored
`_bursts` is not `None` and `<= 0`, and the stored value otherwise. -/
def burstsGet : Option ℤ → Option ℤ
  | none => none
  | some b => if b ≤ 0 then none else some b

/-- Python `==` between an int and an int-or-None value
(`self.__burstCount == self._bursts`): comparing with `None` yields `False`. -/
def pyEqIntOpt (c : ℤ) : Option ℤ → Bool
  | none => false
  | some b => c == b

/-- Python truthiness of an int-or-None value (`if bursts:`). -/
def pyTruthyInt : Option ℤ → Bool
  | none => false
  | some b => b != 0

/-- Python truthiness of a float-or-None value (`if self.__burstTime:`). -/
def pyTruthyRat : Option ℚ → Bool
  | none => false
  | some q => q != 0

/-- Which callback a pending `threading.Timer` of `_PulseSW` will invoke. -/
inductive Phase
  | highP
  | lowP
  deriving DecidableEq

/-- Externally observable actions of the software backend: a write of the pin
level, or the arming of a one-shot timer with the given delay in seconds. -/
inductive Ev
  | write (lvl : Level)
  | arm (delay : ℚ)
  deriving DecidableEq

/-- Object state of `_PulseSW`.  `params` holds the `_PulseAPI` fields;
`timerArmed` records whether a timer is pending and which callback it will
run; `highSW`/`lowSW` model `__high`/`__low` (assigned only by the frequency
and duty-cycle setters, `none` while unassigned); `burstTimeAttr` models the
attribute `_PulseSW__burstTime`, which no method of `_PulseSW` ever assigns,
so reading it while it is `none` is an `AttributeError`. -/
structure SWObj where
  params : ParamState
  burstCount : ℤ
  done : Bool
  nextTrigger : ℚ
  pin : Level
  timerArmed : Option Phase
  highSW : Option ℚ
  lowSW : Option ℚ
  burstTimeAttr : Option ℚ
  deriving DecidableEq

/-- The `_PulseSW` object as it stands right after a successful `__init__`,
given the parameter fields and the current level of the output pin
(`PinIO(pulsePin, OUTPUT)` does not force a level, so it is a parameter). -/
def mkSWObj (p : ParamState) (lvl : Level) : SWObj :=
  ⟨p, 0, false, 0, lvl, none, none, none, none⟩

/-- `_PulseSW.__init__`: runs `_computeParams` via the parent constructor
(raising errors propagate and construction fails), replaces a `None` burst
count by `-1`, and, when a caller-supplied pin object is used, requires its
mode to be OUTPUT or OPEN_DRAIN. -/
def swInit (pinArg : PinArg) (lvl : Level) (frequency dutyCycle : ℚ)
    (bursts : Option ℤ) : Except PulseError SWObj :=
  match computeParams defaultParams frequency dutyCycle bursts with
  | ⟨_, some e⟩ => .error e
  | ⟨p, none⟩ =>
    let p := if p.bursts = none then { p with bursts := some (-1) } else p
    match pinArg with
    | .handle m =>
      if m = .output ∨ m = .openDrain then .ok (mkSWObj p lvl)
      else .error .wrongPinMode
    | .spec => .ok (mkSWObj p lvl)

/-- The `frequency` setter of `_PulseSW`: rejects values above 2000 Hz,
then assigns `_frequency`, `_orgFreq`, `_period = 1/value`, `__high` and
`__low`.  (It does not touch `_highTime`/`_lowTime`.) -/
def swFrequencySet (s : SWObj) (value : ℚ) : MutResult SWObj :=
  if 2000 < value then ⟨s, some .swFreqTooHigh⟩
  else
    let s1 : SWObj :=
      { s with params := { s.params with frequency := value, orgFreq := value } }
    if value = 0 then ⟨s1, some .zeroDivision⟩
    else
      let p := 1 / value
      ⟨{ s1 with
          params := { s1.params with period := p },
          highSW := some (p * s1.params.dutyCycle),
          lowSW := some (p * (1 - s1.params.dutyCycle)) }, none⟩

/-- `_PulseSW.__runHigh`, invoked at wall-clock time `now`: if the done flag
is set, return immediately; otherwise advance `__nextTrigger` by the nominal
`_highTime`, drive the pin HIGH, arm a timer for `__runLow` with delay
`__nextTrigger - time.time()`, and increment the burst counter. -/
def runHigh (s : SWObj) (now : ℚ) : SWObj × List Ev :=
  if s.done then (s, [])
  else
    let nt := s.nextTrigger + s.params.highTime
    ({ s with
        nextTrigger := nt,
        pin := .high,
        timerArmed := some .lowP,
        burstCount := s.burstCount + 1 },
     [.write .high, .arm (nt - now)])

/-- `_PulseSW.__runLow`, invoked at wall-clock time `now`: if the done flag is
set, return immediately; otherwise advance `__nextTrigger` by the nominal
`_lowTime`, drive the pin LOW, set the done flag when the burst counter equals
the stored burst count, and arm a timer for `__runHigh` — the timer is armed
even on the pass that just set the done flag. -/
def runLow (s : SWObj) (now : ℚ) : SWObj × List Ev :=
  if s.done then (s, [])
  else
    let nt := s.nextTrigger + s.params.lowTime
    ({ s with
        nextTrigger := nt,
        pin := .low,
        done := pyEqIntOpt s.burstCount s.params.bursts,
        timerArmed := some .highP },
     [.write .low, .arm (nt - now)])

/-- Deliver the pending timer callback, if any, at wall-clock time `now`.
The timer has fired, so it is no longer pending when the callback runs. -/
def fire (s : SWObj) (now : ℚ) : SWObj × List Ev :=
  match s.timerArmed with
  | none => (s, [])
  | some .highP => runHigh { s with timerArmed := none } now
  | some .lowP => runLow { s with timerArmed := none } now

/-- Deliver a sequence of timer callbacks at the given wall-clock times
(the times model arbitrary scheduling jitter), concatenating the emitted
events. -/
def fireAll (s : SWObj) : List ℚ → SWObj × List Ev
  | [] => (s, [])
  | now :: rest =>
    let r1 := fire s now
    let r2 := fireAll r1.1 rest
    (r2.1, r1.2 ++ r2.2)

/-- `_PulseSW.start`, with `tStart` the value of `time.time()` read in
`start` itself and `tHigh` the one read inside the immediate `__runHigh`
call: re-applies the frequency setter (its error, if any, propagates), sets
`__nextTrigger = time.time() - 0.000440`, and calls `__runHigh`. -/
def swStart (s : SWObj) (tStart tHigh : ℚ) : MutResult SWObj × List Ev :=
  match swFrequencySet s s.params.frequency with
  | ⟨s1, some e⟩ => (⟨s1, some e⟩, [])
  | ⟨s1, none⟩ =>
    let s2 : SWObj := { s1 with nextTrigger := tStart - 11 / 25000 }
    let r := runHigh s2 tHigh
    (⟨r.1, none⟩, r.2)

/-- `_PulseSW.stop`: set the done flag, cancel and drop the pending timer if
any, and force the pin LOW.  Never raises. -/
def swStop (s : SWObj) : MutResult SWObj :=
  ⟨{ s with done := true, timerArmed := none, pin := .low }, none⟩

/-- The `dutyCycle` setter of `_PulseSW`.  It begins with
`if self.__burstTime:`; `_PulseSW` never assigns `__burstTime` anywhere
(only `_PulsePiHW` has such an attribute), so the read raises
`AttributeError` whenever the attribute is absent.  The remaining branches
model the rest of the source: percentage normalization, a validity check
whose `raise` line formats the undefined bare name `dutyCycle` (a
`NameError`), the 0/1 special cases, and the `__high`/`__low` update. -/
def swDutyCycleSet (s : SWObj) (value : ℚ) : MutResult SWObj :=
  match s.burstTimeAttr with
  | none => ⟨s, some .attributeError⟩
  | some bt =>
    if bt ≠ 0 then ⟨s, some .burstInProgress⟩
    else
      let dc := pyNormalizeDuty value
      let s1 : SWObj := { s with params := { s.params with dutyCycle := dc } }
      if dc < 0 ∨ 1 < dc then ⟨s1, some .nameError⟩
      else if dc = 0 then ⟨{ s1 with pin := .low }, none⟩
      else if dc = 1 then ⟨{ s1 with pin := .high }, none⟩
      else
        ⟨{ s1 with
            highSW := some (1 / s1.params.frequency * dc),
            lowSW := some (1 / s1.params.frequency * (1 - dc)) }, none⟩

/-- Number of writes of the given level in an event list. -/
def countWrites (lvl : Level) (evs : List Ev) : ℕ :=
  evs.countP fun e => match e with
    | .write l => l == lvl
    | .arm _ => false

/-- Number of timer-arming events in an event list. -/
def countArms (evs : List Ev) : ℕ :=
  evs.countP fun e => match e with
    | .write _ => false
    | .arm _ => true

/-- Python `round`: round half to even (banker's rounding), as used by
`__writeDevice` before writing a value to a device file. -/
def pyRound (q : ℚ) : ℤ :=
  let fl := ⌊q⌋
  let frac := q - fl
  if frac < 1 / 2 then fl
  else if 1 / 2 < frac then fl + 1
  else if 2 ∣ fl then fl else fl + 1

/-- `_PulsePiHW.__lineToPWMChannel`: lines 12 and 13 map to channels 0 and 1;
otherwise the channel is `line - 16` on a Pi 5 and `line - 18` on earlier
models; channels outside the allowed list (0..1, plus 2..3 on a Pi 5) raise. -/
def lineToPWMChannel (isPi5 : Bool) (line : ℤ) : Except PulseError ℤ :=
  let channel : ℤ :=
    if line = 12 ∨ line = 13 then line - 12
    else if isPi5 then line - 16
    else line - 18
  let allowed : List ℤ := [0, 1] ++ (if isPi5 then [2, 3] else [])
  if channel ∈ allowed then .ok channel else .error .unsupportedLine

/-- Environment of the hardware backend: the Pi model and whether the sysfs
PWM device directory for the channel can be materialized (export write plus
the directory re-check; `deviceReady = false` collapses the retry-and-fail
paths, all of which end in a `GPIOError`). -/
structure HWEnv where
  isPi5 : Bool
  deviceReady : Bool
  deriving DecidableEq

/-- Object state of `_PulsePiHW`: parameter fields, the burst-timer duration
`__burstTime` and whether a burst timer object exists, the `__periodNs`
attribute (assigned only by the frequency setter), and the last values
written to the `period`, `duty_cycle` and `enable` device files. -/
structure HWState where
  params : ParamState
  burstTime : Option ℚ
  burstTimer : Bool
  periodNs : Option ℚ
  periodReg : ℤ
  dutyCycleReg : ℤ
  enableReg : ℤ
  deriving DecidableEq

/-- `_PulsePiHW.__init__`: runs `_computeParams` (errors propagate), rejects
a truthy burst count combined with a frequency above 10 kHz, maps the line to
a PWM channel, computes `__burstTime = bursts * period - lowTime / 2` when
the burst count is truthy — failing when it is below the 0.00075 s floor and
subtracting that settle margin otherwise — then materializes the device
directory and leaves the channel disabled (`enable` 0).  `r0` supplies the
initial contents of the device registers, which this code does not choose. -/
def pulsePiHWInit (env : HWEnv) (line : ℤ) (frequency dutyCycle : ℚ)
    (bursts : Option ℤ) (r0 : ℤ × ℤ) : Except PulseError HWState :=
  match computeParams defaultParams frequency dutyCycle bursts with
  | ⟨_, some e⟩ => .error e
  | ⟨p, none⟩ =>
    if pyTruthyInt bursts ∧ 10000 < p.frequency then .error .burstFreqTooHigh
    else
      match lineToPWMChannel env.isPi5 line with
      | .error e => .error e
      | .ok _ =>
        let shortestBurstTime : ℚ := 75 / 100000
        let burstTime? : Except PulseError (Option ℚ) :=
          if pyTruthyInt p.bursts then
            let bt := (p.bursts.getD 0) * p.period - p.lowTime / 2
            if bt < shortestBurstTime then .error .burstTooShort
            else .ok (some (bt - shortestBurstTime))
          else .ok none
        match burstTime? with
        | .error e => .error e
        | .ok bt =>
          if env.deviceReady then
            .ok ⟨p, bt, false, none, r0.1, r0.2, 0⟩
          else .error .deviceUnavailable

/-- The `frequency` setter of `_PulsePiHW`: rejects values above 5 MHz and
below 0.1 Hz, then re-derives all parameters via `_computeParams`, computes
`__periodNs = period * 1e9` and rewrites the device files in the order
duty_cycle 0, period, duty_cycle (the register fields keep the final value of
each file). -/
def hwFrequencySet (s : HWState) (value : ℚ) : MutResult HWState :=
  if 5000000 < value then ⟨s, some .hwFreqTooHigh⟩
  else if value < 1 / 10 then ⟨s, some .hwFreqTooLow⟩
  else
    let r := computeParams s.params value s.params.dutyCycle s.params.bursts
    match r.err with
    | some e => ⟨{ s with params := r.state }, some e⟩
    | none =>
      let pNs := r.state.period * 1000000000
      ⟨{ s with
          params := r.state,
          periodNs := some pNs,
          periodReg := pyRound pNs,
          dutyCycleReg := pyRound (pNs * r.state.dutyCycle) }, none⟩

/-- The `dutyCycle` setter of `_PulsePiHW`: re-derives all parameters via
`_computeParams(self._frequency, value, self._bursts)` (errors propagate with
the mutations made so far in place), then writes
`__periodNs * _dutyCycle` to the duty_cycle device file — reading
`__periodNs` is an `AttributeError` if the frequency setter never ran. -/
def hwDutyCycleSet (s : HWState) (value : ℚ) : MutResult HWState :=
  let r := computeParams s.params s.params.frequency value s.params.bursts
  match r.err with
  | some e => ⟨{ s with params := r.state }, some e⟩
  | none =>
    match s.periodNs with
    | none => ⟨{ s with params := r.state }, some .attributeError⟩
    | some pNs =>
      ⟨{ s with
          params := r.state,
          dutyCycleReg := pyRound (pNs * r.state.dutyCycle) }, none⟩

/-- `_PulsePiHW.start`: creates the burst timer object when `__burstTime` is
truthy, re-applies the frequency setter (whose error, if any, propagates),
writes `enable` 1 and starts the timer. -/
def hwStart (s : HWState) : MutResult HWState :=
  let s1 : HWState :=
    if pyTruthyRat s.burstTime then { s with burstTimer := true } else s
  let r := hwFrequencySet s1 s1.params.frequency
  match r.err with
  | some e => ⟨r.state, some e⟩
  | none => ⟨{ r.state with enableReg := 1 }, none⟩

/-- `_PulsePiHW.stop`: cancels and drops the burst timer if present, then
writes duty_cycle 0 and enable 0, each wrapped in `try/except OSError: pass`;
`okDuty`/`okEnable` say whether each device write takes effect (an `OSError`
is swallowed either way, so `stop` never raises). -/
def hwStop (s : HWState) (okDuty okEnable : Bool) : MutResult HWState :=
  let s1 : HWState := { s with burstTimer := false }
  let s2 : HWState := if okDuty then { s1 with dutyCycleReg := 0 } else s1
  let s3 : HWState := if okEnable then { s2 with enableReg := 0 } else s2
  ⟨s3, none⟩

/-- Environment visible to `tools.py`: the platform flag, whether the sysfs
directory of the PWM chip exists (the pwm-2chan module is loaded), whether
`/boot/firmware/config.txt` is newer than the boot time, and whether it
carries the `pin=12` PWM overlay line. -/
structure ToolsEnv where
  isPico : Bool
  pwmChipDirExists : Bool
  configModifiedSinceBoot : Bool
  configHasPwm12 : Bool
  deriving DecidableEq

/-- `tools.hwPWMlines`: on a Pico every GPIO line 0..22 and 26..28; on a Pi,
raise if config.txt changed since boot, else lines 12/13 under the pin=12
overlay and 18/19 otherwise. -/
def hwPWMlines (e : ToolsEnv) : Except PulseError (List ℤ) :=
  if e.isPico then
    .ok ((List.range 23).map Int.ofNat ++ [26, 27, 28])
  else if e.configModifiedSinceBoot then .error .configModified
  else if e.configHasPwm12 then .ok [12, 13]
  else .ok [18, 19]

/-- `tools.isHWpulsePin` (with the pin argument already translated to its
GPIO line): `False` outright when, on a non-Pico platform, the PWM chip
directory is missing; otherwise membership in `hwPWMlines`. -/
def isHWpulsePinM (e : ToolsEnv) (line : ℤ) : Except PulseError Bool :=
  if e.isPico = false ∧ e.pwmChipDirExists = false then .ok false
  else (hwPWMlines e).map fun ls => line ∈ ls

/-- The backend selected by the `Pulse` dispatcher. -/
inductive Mode
  | hardware
  | software
  deriving DecidableEq

/-- The `pulsePin` argument of the `Pulse` dispatcher: an already-constructed
pin object, or a pin/line specifier carrying its GPIO line. -/
inductive PulseTarget
  | pinHandle
  | lineSpec (line : ℤ)
  deriving DecidableEq

/-- Backend selection in `Pulse.__init__`:
`if isinstance(pulsePin, PinIO) or not isHWpulsePin(pulsePin)` picks the
software backend, else the hardware backend.  Python's `or` short-circuits,
so the capability probe never runs for an already-constructed pin object. -/
def selectBackend (e : ToolsEnv) : PulseTarget → Except PulseError Mode
  | .pinHandle => .ok .software
  | .lineSpec line =>
    (isHWpulsePinM e line).map fun capable =>
      if capable then .hardware else .software

/-- The full observable outcome of `start()` followed by delivering the timer
callbacks at the given jitter times: final object state and the concatenated
event trace. -/
def startThenFire (s0 : SWObj) (tS tH : ℚ) (jitter : List ℚ) : SWObj × List Ev :=
  let st := swStart s0 tS tH
  let r := fireAll st.1.state jitter
  (r.1, st.2 ++ r.2)

section Lemmas

/-- A state with no pending timer is quiescent: delivering any further
callback sequence changes nothing and emits nothing. -/
theorem fireAll_timerArmed_none {s : SWObj} (h : s.timerArmed = none) :
    ∀ jitter : List ℚ, fireAll s jitter = (s, []) := by
  intro jitter
  induction jitter with
  | nil => rfl
  | cons a rest ih => simp [fireAll, fire, h, ih]

/-- The normalization is the identity on duty cycles that are at most 1. -/
theorem pyNormalizeDuty_of_le_one {dc : ℚ} (h : dc ≤ 1) :
    pyNormalizeDuty dc = dc := by
  unfold pyNormalizeDuty
  rw [if_neg]
  rintro ⟨h1, -⟩
  linarith

/-- The normalization is the identity on duty cycles outside `[0, 100]`. -/
theorem pyNormalizeDuty_of_invalid {dc : ℚ} (h : dc < 0 ∨ 100 < dc) :
    pyNormalizeDuty dc = dc := by
  unfold pyNormalizeDuty
  rw [if_neg]
  rintro ⟨h1, h2⟩
  rcases h with h | h <;> linarith

/-- `_computeParams` on a valid duty cycle (at most 1) and nonzero frequency:
no error, and every parameter field is overwritten with the derived value. -/
theorem computeParams_ok (s : ParamState) (f dc : ℚ) (b : Option ℤ)
    (hf : f ≠ 0) (hd0 : 0 ≤ dc) (hd1 : dc ≤ 1) :
    computeParams s f dc b =
      ⟨⟨b, f, f, dc, 1 / f, 1 / f * dc, 1 / f * (1 - dc)⟩, none⟩ := by
  unfold computeParams
  rw [pyNormalizeDuty_of_le_one hd1]
  rw [if_neg (by push_neg; exact ⟨hd0, hd1⟩), if_neg hf]

/-- `_PulseSW.__init__` with a pin specifier, a valid duty cycle and a
nonzero frequency succeeds, storing `-1` in place of a `None` burst count. -/
theorem swInit_spec_eq (lvl : Level) (f dc : ℚ) (b : Option ℤ)
    (hf : f ≠ 0) (hd0 : 0 ≤ dc) (hd1 : dc ≤ 1) :
    swInit .spec lvl f dc b =
      .ok (mkSWObj ⟨some (b.getD (-1)), f, f, dc, 1 / f, 1 / f * dc,
        1 / f * (1 - dc)⟩ lvl) := by
  unfold swInit
  rw [computeParams_ok defaultParams f dc b hf hd0 hd1]
  cases b <;> simp

/-- One full burst countdown: from a state whose pending timer is about to run
`__runLow` and whose counter will reach the stored burst count `B` after `k`
more `__runHigh` invocations, `2*k + 1` callback deliveries (at arbitrary
jitter times) end with the done flag set right after the `B`-th low phase,
the pin LOW, one trailing timer pending, `k` further HIGH writes, `k + 1`
further LOW writes and `2*k + 1` further timer arms; the deadline advanced by
the nominal amounts only. -/
theorem swCycleBurst (k : ℕ) :
    ∀ (s : SWObj) (B : ℤ) (jitter : List ℚ),
      jitter.length = 2 * k + 1 →
      s.done = false →
      s.timerArmed = some .lowP →
      s.params.bursts = some B →
      s.burstCount + k = B →
      (fireAll s jitter).1 =
        { s with
            burstCount := B,
            done := true,
            pin := .low,
            timerArmed := some .highP,
            nextTrigger := s.nextTrigger + s.params.lowTime
              + k * (s.params.highTime + s.params.lowTime) }
      ∧ countWrites .high (fireAll s jitter).2 = k
      ∧ countWrites .low (fireAll s jitter).2 = k + 1
      ∧ countArms (fireAll s jitter).2 = 2 * k + 1 := by
  induction k with
  | zero =>
    intro s B jitter hlen hdone htimer hbursts hcount
    match jitter with
    | [a] =>
      obtain ⟨p, bc, dn, nt, pin, ta, hsw, lsw, bta⟩ := s
      simp only at hdone htimer hbursts hcount
      subst hdone htimer
      have hbc : bc = B := by push_cast at hcount; linarith
      subst hbc
      simp [fireAll, fire, runLow, pyEqIntOpt, hbursts, countWrites, countArms]
  | succ k ih =>
    intro s B jitter hlen hdone htimer hbursts hcount
    match jitter with
    | a :: b :: rest =>
      obtain ⟨p, bc, dn, nt, pin, ta, hsw, lsw, bta⟩ := s
      simp only at hdone htimer hbursts hcount
      subst hdone htimer
      have hne : (bc == B) = false := by
        apply beq_false_of_ne
        intro h
        rw [h] at hcount
        push_cast at hcount
        linarith
      have hrest : rest.length = 2 * k + 1 := by
        simp only [List.length_cons] at hlen
        omega
      have hcount' : (bc + 1) + (k : ℤ) = B := by push_cast at hcount ⊢; linarith
      have step := ih ⟨p, bc + 1, false, nt + p.lowTime + p.highTime, .high,
          some .lowP, hsw, lsw, bta⟩ B rest hrest rfl rfl hbursts (by simpa using hcount')
      obtain ⟨hst, hc1, hc2, hc3⟩ := step
      simp only [fireAll, fire, runLow, runHigh, pyEqIntOpt, hbursts, hne,
        Bool.false_eq_true, if_false, reduceCtorEq] at hst hc1 hc2 hc3 ⊢
      refine ⟨?_, ?_, ?_, ?_⟩
      · rw [hst]
        simp only [SWObj.mk.injEq, and_true, true_and]
        push_cast
        ring
      · simp only [countWrites, List.countP_cons, List.countP_append] at hc1 ⊢
        simp only [Bool.false_eq_true, if_false, if_true, reduceIte] at hc1 ⊢
        simp at hc1 ⊢
        omega
      · simp only [countWrites, List.countP_cons, List.countP_append] at hc2 ⊢
        simp at hc2 ⊢
        omega
      · simp only [countArms, List.countP_cons, List.countP_append] at hc3 ⊢
        simp at hc3 ⊢
        omega

/-- Continuous mode (negative stored burst count, nonnegative counter): the
counter never matches, so `2*k + 1` callback deliveries starting from a
pending `__runLow` timer complete the current period and `k` further full
periods — the deadline advancing by the nominal amounts only, whatever the
jitter times are. -/
theorem swCycleCont (k : ℕ) :
    ∀ (s : SWObj) (B : ℤ) (jitter : List ℚ),
      jitter.length = 2 * k + 1 →
      s.done = false →
      s.timerArmed = some .lowP →
      s.params.bursts = some B →
      B < 0 →
      0 ≤ s.burstCount →
      (fireAll s jitter).1 =
        { s with
            burstCount := s.burstCount + k,
            pin := .low,
            timerArmed := some .highP,
            nextTrigger := s.nextTrigger + s.params.lowTime
              + k * (s.params.highTime + s.params.lowTime) } := by
  induction k with
  | zero =>
    intro s B jitter hlen hdone htimer hbursts hB hbc
    match jitter with
    | [a] =>
      obtain ⟨p, bc, dn, nt, pin, ta, hsw, lsw, bta⟩ := s
      simp only at hdone htimer hbursts hbc
      subst hdone htimer
      have hne : (bc == B) = false := by
        apply beq_false_of_ne
        intro h
        rw [h] at hbc
        linarith
      simp [fireAll, fire, runLow, pyEqIntOpt, hbursts, hne]
  | succ k ih =>
    intro s B jitter hlen hdone htimer hbursts hB hbc
    match jitter with
    | a :: b :: rest =>
      obtain ⟨p, bc, dn, nt, pin, ta, hsw, lsw, bta⟩ := s
      simp only at hdone htimer hbursts hbc
      subst hdone htimer
      have hne : (bc == B) = false := by
        apply beq_false_of_ne
        intro h
        rw [h] at hbc
        linarith
      have hrest : rest.length = 2 * k + 1 := by
        simp only [List.length_cons] at hlen
        omega
      have step := ih ⟨p, bc + 1, false, nt + p.lowTime + p.highTime, .high,
          some .lowP, hsw, lsw, bta⟩ B rest hrest rfl rfl hbursts hB
        (by simp; linarith)
      simp only [fireAll, fire, runLow, runHigh, pyEqIntOpt, hbursts, hne,
        Bool.false_eq_true, if_false, reduceCtorEq] at step ⊢
      rw [step]
      simp only [SWObj.mk.injEq, and_true, true_and]
      refine ⟨by push_cast; ring, by push_cast; ring⟩

/-- Effect of `start()` on a freshly constructed software pulse whose
frequency is within the software range and nonzero: no error, the pin is
driven HIGH once, one timer for the low phase is armed, the counter becomes
1 and the deadline is the corrected start time plus the nominal high time. -/
theorem swStart_eq (p : ParamState) (lvl : Level) (tS tH : ℚ)
    (h2000 : ¬ 2000 < p.frequency) (hf : p.frequency ≠ 0) :
    swStart (mkSWObj p lvl) tS tH =
      (⟨⟨{ p with orgFreq := p.frequency, period := 1 / p.frequency },
         1, false, tS - 11 / 25000 + p.highTime, .high, some .lowP,
         some (1 / p.frequency * p.dutyCycle),
         some (1 / p.frequency * (1 - p.dutyCycle)), none⟩, none⟩,
       [.write .high, .arm (tS - 11 / 25000 + p.highTime - tH)]) := by
  simp [swStart, swFrequencySet, mkSWObj, runHigh, h2000, hf]

end Lemmas

section Claims

/-- C1 (software backend burst termination): a software pulse constructed
with any valid frequency/duty cycle and a finite burst count `N ≥ 1`, once
started, drives the pin HIGH exactly `N` times and LOW exactly `N` times
(whatever the scheduling jitter of the `2*N - 1` timer callbacks), arms
exactly `2*N` timers in total, autonomously sets its done flag with the pin
LOW after the `N`-th low phase without any `stop()` call, and after the final
low phase completes the one trailing pending timer fires into a callback that
writes nothing and arms nothing, after which the backend is quiescent
forever. -/
theorem swBurstTermination (N : ℕ) (f dc tS tH : ℚ) (lvl : Level)
    (jitter : List ℚ) (s0 : SWObj)
    (hN : 1 ≤ N) (hf0 : 0 < f) (hf2 : f ≤ 2000)
    (hd0 : 0 ≤ dc) (hd1 : dc ≤ 1)
    (hlen : jitter.length = 2 * N - 1)
    (hinit : swInit .spec lvl f dc (some (N : ℤ)) = .ok s0) :
    (swStart s0 tS tH).1.err = none
    ∧ countWrites .high (startThenFire s0 tS tH jitter).2 = N
    ∧ countWrites .low (startThenFire s0 tS tH jitter).2 = N
    ∧ countArms (startThenFire s0 tS tH jitter).2 = 2 * N
    ∧ (startThenFire s0 tS tH jitter).1.done = true
    ∧ (startThenFire s0 tS tH jitter).1.pin = .low
    ∧ (startThenFire s0 tS tH jitter).1.timerArmed = some .highP
    ∧ (∀ now, fire (startThenFire s0 tS tH jitter).1 now
        = ({ (startThenFire s0 tS tH jitter).1 with timerArmed := none }, []))
    ∧ (∀ more, fireAll
          { (startThenFire s0 tS tH jitter).1 with timerArmed := none } more
        = ({ (startThenFire s0 tS tH jitter).1 with timerArmed := none }, [])) := by
  have hfne : f ≠ 0 := ne_of_gt hf0
  have h2000 : ¬ (2000 : ℚ) < f := by linarith
  rw [swInit_spec_eq lvl f dc (some (N : ℤ)) hfne hd0 hd1] at hinit
  simp only [Option.getD_some] at hinit
  injection hinit with hs0
  subst hs0
  simp only [startThenFire]
  rw [swStart_eq _ lvl tS tH h2000 hfne]
  dsimp only
  obtain ⟨k, hk⟩ : ∃ k, N = k + 1 := ⟨N - 1, by omega⟩
  subst hk
  have hlen' : jitter.length = 2 * k + 1 := by omega
  have key := swCycleBurst k
    ⟨⟨some ((k : ℤ) + 1), f, f, dc, 1 / f, 1 / f * dc, 1 / f * (1 - dc)⟩,
      1, false, tS - 11 / 25000 + 1 / f * dc, .high, some .lowP,
      some (1 / f * dc), some (1 / f * (1 - dc)), none⟩
    ((k : ℤ) + 1) jitter hlen' rfl rfl rfl (by push_cast; ring)
  obtain ⟨hst, hc1, hc2, hc3⟩ := key
  push_cast at hst hc1 hc2 hc3 ⊢
  refine ⟨rfl, ?_, ?_, ?_, ?_, ?_, ?_, ?_, ?_⟩
  · simp only [countWrites, List.countP_append, List.countP_cons] at hc1 ⊢
    simp at hc1 ⊢
    omega
  · simp only [countWrites, List.countP_append, List.countP_cons] at hc2 ⊢
    simp at hc2 ⊢
    omega
  · simp only [countArms, List.countP_append, List.countP_cons] at hc3 ⊢
    simp at hc3 ⊢
    omega
  · rw [hst]
  · rw [hst]
  · rw [hst]
  · intro now
    rw [hst]
    simp [fire, runHigh]
  · intro more
    exact fireAll_timerArmed_none rfl more

/-- Witness for C1: the spec's own instance, `frequency=100`, `dutyCycle=0.5`,
`bursts=10`, run with zero jitter: exactly 10 HIGH and 10 LOW writes, the done
flag set autonomously. -/
theorem swBurstTermination_witness :
    ((1 : ℕ) ≤ 10 ∧ (0 : ℚ) < 100 ∧ (100 : ℚ) ≤ 2000 ∧ (0 : ℚ) ≤ 1 / 2
      ∧ (1 / 2 : ℚ) ≤ 1 ∧ (List.replicate 19 (0 : ℚ)).length = 2 * 10 - 1
      ∧ swInit .spec .low 100 (1 / 2) (some (10 : ℤ))
          = .ok (mkSWObj ⟨some 10, 100, 100, 1 / 2, 1 / 100, 1 / 200, 1 / 200⟩ .low))
    ∧ countWrites .high
        (startThenFire (mkSWObj ⟨some 10, 100, 100, 1 / 2, 1 / 100, 1 / 200, 1 / 200⟩ .low)
          0 0 (List.replicate 19 0)).2 = 10
    ∧ (startThenFire (mkSWObj ⟨some 10, 100, 100, 1 / 2, 1 / 100, 1 / 200, 1 / 200⟩ .low)
          0 0 (List.replicate 19 0)).1.done = true :=
  ⟨⟨by norm_num, by norm_num, by norm_num, by norm_num, by norm_num, by simp, by decide⟩,
   (swBurstTermination 10 100 (1 / 2) 0 0 .low (List.replicate 19 0)
      (mkSWObj ⟨some 10, 100, 100, 1 / 2, 1 / 100, 1 / 200, 1 / 200⟩ .low)
      (by norm_num) (by norm_num) (by norm_num) (by norm_num) (by norm_num)
      (by simp) (by decide)).2.1,
   (swBurstTermination 10 100 (1 / 2) 0 0 .low (List.replicate 19 0)
      (mkSWObj ⟨some 10, 100, 100, 1 / 2, 1 / 100, 1 / 200, 1 / 200⟩ .low)
      (by norm_num) (by norm_num) (by norm_num) (by norm_num) (by norm_num)
      (by simp) (by decide)).2.2.2.2.1⟩

/-- C2 (software backend anti-drift scheduling): every non-done callback step
advances the deadline by exactly the nominal high or low time — independent
of the wall-clock time at which the callback runs — and consequently, for a
started continuous software pulse, after `m` full high+low toggles the
deadline has advanced by exactly `m * period = m * (1/f)` past the corrected
start time, for every jitter sequence. -/
theorem swAntiDrift (m : ℕ) (f dc tS tH : ℚ) (lvl : Level)
    (jitter : List ℚ) (s0 : SWObj)
    (hm : 1 ≤ m) (hf0 : 0 < f) (hf2 : f ≤ 2000)
    (hd0 : 0 ≤ dc) (hd1 : dc ≤ 1)
    (hlen : jitter.length = 2 * m - 1)
    (hinit : swInit .spec lvl f dc none = .ok s0) :
    (startThenFire s0 tS tH jitter).1.nextTrigger
        = tS - 11 / 25000 + m * (1 / f)
    ∧ (∀ (s : SWObj) (now other : ℚ), s.done = false →
        (runHigh s now).1.nextTrigger = s.nextTrigger + s.params.highTime
        ∧ (runHigh s now).1 = (runHigh s other).1
        ∧ (runLow s now).1.nextTrigger = s.nextTrigger + s.params.lowTime
        ∧ (runLow s now).1 = (runLow s other).1) := by
  constructor
  · have hfne : f ≠ 0 := ne_of_gt hf0
    have h2000 : ¬ (2000 : ℚ) < f := by linarith
    rw [swInit_spec_eq lvl f dc none hfne hd0 hd1] at hinit
    simp only [Option.getD_none] at hinit
    injection hinit with hs0
    subst hs0
    simp only [startThenFire]
    rw [swStart_eq _ lvl tS tH h2000 hfne]
    dsimp only
    obtain ⟨k, hk⟩ : ∃ k, m = k + 1 := ⟨m - 1, by omega⟩
    subst hk
    have hlen' : jitter.length = 2 * k + 1 := by omega
    have key := swCycleCont k
      ⟨⟨some (-1), f, f, dc, 1 / f, 1 / f * dc, 1 / f * (1 - dc)⟩,
        1, false, tS - 11 / 25000 + 1 / f * dc, .high, some .lowP,
        some (1 / f * dc), some (1 / f * (1 - dc)), none⟩
      (-1) jitter hlen' rfl rfl rfl (by norm_num) (by norm_num)
    rw [key]
    push_cast
    field_simp
    ring
  · intro s now other hdone
    refine ⟨?_, ?_, ?_, ?_⟩ <;> simp [runHigh, runLow, hdone]

/-- Witness for C2: `frequency=100`, `dutyCycle=0.5`, continuous mode, ten
full toggles under zero jitter: the deadline sits exactly `10 * (1/100)`
past the corrected start time. -/
theorem swAntiDrift_witness :
    ((1 : ℕ) ≤ 10 ∧ (0 : ℚ) < 100 ∧ (100 : ℚ) ≤ 2000 ∧ (0 : ℚ) ≤ 1 / 2
      ∧ (1 / 2 : ℚ) ≤ 1 ∧ (List.replicate 19 (0 : ℚ)).length = 2 * 10 - 1
      ∧ swInit .spec .low 100 (1 / 2) none
          = .ok (mkSWObj ⟨some (-1), 100, 100, 1 / 2, 1 / 100, 1 / 200, 1 / 200⟩ .low))
    ∧ (startThenFire (mkSWObj ⟨some (-1), 100, 100, 1 / 2, 1 / 100, 1 / 200, 1 / 200⟩ .low)
          0 0 (List.replicate 19 0)).1.nextTrigger
        = 0 - 11 / 25000 + 10 * (1 / 100) :=
  ⟨⟨by norm_num, by norm_num, by norm_num, by norm_num, by norm_num, by simp, by decide⟩,
   (swAntiDrift 10 100 (1 / 2) 0 0 .low (List.replicate 19 0)
      (mkSWObj ⟨some (-1), 100, 100, 1 / 2, 1 / 100, 1 / 200, 1 / 200⟩ .low)
      (by norm_num) (by norm_num) (by norm_num) (by norm_num) (by norm_num)
      (by simp) (by decide)).1⟩

/-- C3 (idempotent stop for both backends): on any software state, `stop()`
raises no error, a second `stop()` raises no error and leaves the state of
the first exactly, with done flag set, timer cancelled and pin LOW; on any
hardware state, `stop()` raises no error whatever the device writes do, a
second `stop()` with the same write outcomes raises no error and leaves the
same state, the burst timer is always cancelled, and when the writes take
effect duty_cycle and enable both end at 0. -/
theorem stopIdempotent (sSW : SWObj) (sHW : HWState) (o1 o2 : Bool) :
    (swStop sSW).err = none
    ∧ (swStop (swStop sSW).state).err = none
    ∧ (swStop (swStop sSW).state).state = (swStop sSW).state
    ∧ (swStop sSW).state.done = true
    ∧ (swStop sSW).state.timerArmed = none
    ∧ (swStop sSW).state.pin = .low
    ∧ (hwStop sHW o1 o2).err = none
    ∧ (hwStop (hwStop sHW o1 o2).state o1 o2).err = none
    ∧ (hwStop (hwStop sHW o1 o2).state o1 o2).state = (hwStop sHW o1 o2).state
    ∧ (hwStop sHW o1 o2).state.burstTimer = false
    ∧ (hwStop sHW true true).state.dutyCycleReg = 0
    ∧ (hwStop sHW true true).state.enableReg = 0 := by
  cases o1 <;> cases o2 <;> simp [swStop, hwStop]

/-- Counterexample to C4 as stated: `_computeParams` on the out-of-range duty
cycle 200 does raise, but it has already stored 200 in the duty-cycle
attribute (previously 1/2) before raising — a value is stored despite the
error. -/
theorem dutyCycleStoredDespiteError :
    (computeParams (computeParams defaultParams 1000 (1 / 2) none).state
        1000 200 none).err = some .invalidDutyCycle
    ∧ (computeParams (computeParams defaultParams 1000 (1 / 2) none).state
        1000 200 none).state.dutyCycle = 200
    ∧ (computeParams defaultParams 1000 (1 / 2) none).state.dutyCycle = 1 / 2 := by
  decide

/-- C4 as amended (duty-cycle normalization and validation): for a supplied
duty cycle in `(1, 100]` the stored internal duty cycle is `dutyCycle/100`
and lies in `[0, 1]` with no error; for a supplied duty cycle outside
`[0, 1]` after percentage normalization, `_computeParams` raises the
invalid-duty-cycle error and leaves the derived period, high time and low
time unchanged — but the rejected value itself has already been written to
the stored duty-cycle attribute. -/
theorem dutyCycleNormalization (s : ParamState) (f dc : ℚ) (b : Option ℤ)
    (hf : 0 < f) :
    (1 < dc ∧ dc ≤ 100 →
      (computeParams s f dc b).err = none
      ∧ (computeParams s f dc b).state.dutyCycle = dc / 100
      ∧ 0 ≤ dc / 100 ∧ dc / 100 ≤ 1)
    ∧ ((dc < 0 ∨ 100 < dc) →
      (computeParams s f dc b).err = some .invalidDutyCycle
      ∧ (computeParams s f dc b).state.dutyCycle = dc
      ∧ (computeParams s f dc b).state.period = s.period
      ∧ (computeParams s f dc b).state.highTime = s.highTime
      ∧ (computeParams s f dc b).state.lowTime = s.lowTime) := by
  constructor
  · rintro ⟨h1, h2⟩
    have hd0 : (0 : ℚ) ≤ dc / 100 := by positivity
    have hd1 : dc / 100 ≤ 1 := by rw [div_le_one (by norm_num)]; exact h2
    have hnorm : pyNormalizeDuty dc = dc / 100 := if_pos ⟨h1, h2⟩
    unfold computeParams
    rw [hnorm, if_neg (by push_neg; exact ⟨hd0, hd1⟩), if_neg (ne_of_gt hf)]
    exact ⟨rfl, rfl, hd0, hd1⟩
  · intro hbad
    have hnorm : pyNormalizeDuty dc = dc := pyNormalizeDuty_of_invalid hbad
    have hout : dc < 0 ∨ 1 < dc := by
      rcases hbad with h | h
      · exact Or.inl h
      · exact Or.inr (by linarith)
    unfold computeParams
    rw [hnorm, if_pos hout]
    exact ⟨rfl, rfl, rfl, rfl, rfl⟩

/-- Witness for C4: duty cycle 50 supplied as a percentage at 1000 Hz is
stored as 1/2. -/
theorem dutyCycleNormalization_witness :
    ((0 : ℚ) < 1000 ∧ (1 : ℚ) < 50 ∧ (50 : ℚ) ≤ 100)
    ∧ ((computeParams defaultParams 1000 50 none).err = none
      ∧ (computeParams defaultParams 1000 50 none).state.dutyCycle = 50 / 100
      ∧ (0 : ℚ) ≤ 50 / 100 ∧ (50 : ℚ) / 100 ≤ 1) :=
  ⟨⟨by norm_num, by norm_num, by norm_num⟩,
   (dutyCycleNormalization defaultParams 1000 50 none (by norm_num)).1
     ⟨by norm_num, by norm_num⟩⟩

/-- Counterexample to C5 as stated: setting the duty cycle of a hardware
pulse to the invalid value -1 raises, yet the stored duty-cycle parameter
has changed from 1/2 to -1 while the derived high time kept its old value —
the parameter set is updated neither atomically nor not at all. -/
theorem hwDutySetNotAtomic :
    (hwDutyCycleSet ⟨(computeParams defaultParams 1000 (1 / 2) none).state,
        none, false, some 1000000, 1000000, 500000, 0⟩ (-1)).err
      = some .invalidDutyCycle
    ∧ (hwDutyCycleSet ⟨(computeParams defaultParams 1000 (1 / 2) none).state,
        none, false, some 1000000, 1000000, 500000, 0⟩ (-1)).state.params.dutyCycle
      = -1
    ∧ (computeParams defaultParams 1000 (1 / 2) none).state.dutyCycle = 1 / 2
    ∧ (hwDutyCycleSet ⟨(computeParams defaultParams 1000 (1 / 2) none).state,
        none, false, some 1000000, 1000000, 500000, 0⟩ (-1)).state.params.highTime
      = (computeParams defaultParams 1000 (1 / 2) none).state.highTime := by
  decide

/-- C5 as amended (re-derivation is not atomic): when the new combination is
valid, `_computeParams` overwrites all seven stored parameters together with
the newly derived values; when it is invalid, an error is raised and the
derived period, high time and low time keep their previous values, but the
raw burst count, frequency and (normalized) duty cycle have already been
overwritten with the new values. -/
theorem computeParamsAtomicity (s : ParamState) (f dc : ℚ) (b : Option ℤ)
    (hf : 0 < f) :
    ((computeParams s f dc b).err = none →
      (computeParams s f dc b).state =
        ⟨b, f, f, pyNormalizeDuty dc, 1 / f, 1 / f * pyNormalizeDuty dc,
          1 / f * (1 - pyNormalizeDuty dc)⟩)
    ∧ ((computeParams s f dc b).err ≠ none →
      (computeParams s f dc b).state.period = s.period
      ∧ (computeParams s f dc b).state.highTime = s.highTime
      ∧ (computeParams s f dc b).state.lowTime = s.lowTime
      ∧ (computeParams s f dc b).state.bursts = b
      ∧ (computeParams s f dc b).state.orgFreq = f
      ∧ (computeParams s f dc b).state.frequency = f
      ∧ (computeParams s f dc b).state.dutyCycle = pyNormalizeDuty dc) := by
  by_cases hbad : pyNormalizeDuty dc < 0 ∨ 1 < pyNormalizeDuty dc
  · constructor
    · intro herr
      exfalso
      unfold computeParams at herr
      rw [if_pos hbad] at herr
      exact Option.some_ne_none _ herr
    · intro _
      unfold computeParams
      rw [if_pos hbad]
      exact ⟨rfl, rfl, rfl, rfl, rfl, rfl, rfl⟩
  · constructor
    · intro _
      unfold computeParams
      rw [if_neg hbad, if_neg (ne_of_gt hf)]
    · intro herr
      exfalso
      apply herr
      unfold computeParams
      rw [if_neg hbad, if_neg (ne_of_gt hf)]

/-- Witness for C5: a valid update at 1000 Hz, duty cycle 1/4: all stored
parameters equal the derived record. -/
theorem computeParamsAtomicity_witness :
    ((0 : ℚ) < 1000 ∧ (computeParams defaultParams 1000 (1 / 4) none).err = none)
    ∧ (computeParams defaultParams 1000 (1 / 4) none).state =
        ⟨none, 1000, 1000, pyNormalizeDuty (1 / 4), 1 / 1000,
          1 / 1000 * pyNormalizeDuty (1 / 4),
          1 / 1000 * (1 - pyNormalizeDuty (1 / 4))⟩ :=
  ⟨⟨by norm_num, by decide⟩,
   (computeParamsAtomicity defaultParams 1000 (1 / 4) none (by norm_num)).1
     (by decide)⟩

/-- C6 (capability routing): an already-constructed pin handle always routes
to the software backend, for every environment — the capability probe is
never consulted; a pin/line specifier on a Pi whose config.txt has not
changed since boot routes to the hardware backend exactly when the PWM chip
directory exists and the line is in the hardware-PWM line set, and to the
software backend in every other case. -/
theorem capabilityRouting :
    (∀ e : ToolsEnv, selectBackend e .pinHandle = .ok .software)
    ∧ (∀ (e : ToolsEnv) (line : ℤ),
        e.isPico = false → e.configModifiedSinceBoot = false →
        (selectBackend e (.lineSpec line) = .ok .hardware ↔
          e.pwmChipDirExists = true
          ∧ line ∈ (if e.configHasPwm12 then ([12, 13] : List ℤ) else [18, 19]))
        ∧ (selectBackend e (.lineSpec line) = .ok .software ↔
          ¬(e.pwmChipDirExists = true
            ∧ line ∈ (if e.configHasPwm12 then ([12, 13] : List ℤ) else [18, 19])))) := by
  constructor
  · intro e
    rfl
  · intro e line hpico hcfg
    cases hdir : e.pwmChipDirExists <;> cases hc12 : e.configHasPwm12 <;>
      by_cases hm : line ∈ (if e.configHasPwm12 then ([12, 13] : List ℤ) else [18, 19]) <;>
      simp_all [selectBackend, isHWpulsePinM, hwPWMlines, Except.map]

/-- Witness for C6: on a Pi with the chip directory present and the default
overlay, line 18 routes to hardware. -/
theorem capabilityRouting_witness :
    ((⟨false, true, false, false⟩ : ToolsEnv).isPico = false
      ∧ (⟨false, true, false, false⟩ : ToolsEnv).configModifiedSinceBoot = false)
    ∧ (selectBackend ⟨false, true, false, false⟩ (.lineSpec 18) = .ok .hardware ↔
        (⟨false, true, false, false⟩ : ToolsEnv).pwmChipDirExists = true
        ∧ (18 : ℤ) ∈ (if (⟨false, true, false, false⟩ : ToolsEnv).configHasPwm12
            then ([12, 13] : List ℤ) else [18, 19])) :=
  ⟨⟨rfl, rfl⟩, (capabilityRouting.2 ⟨false, true, false, false⟩ 18 rfl rfl).1⟩

/-- Counterexample to C7 as stated: a hardware pulse constructed with a
finite burst count of 5 at 100 Hz accepts a later frequency request of
20000 Hz — above 10 kHz — without any error: the burst frequency limit is
not re-checked by the frequency setter. -/
theorem hwBurstFreqNotRechecked :
    (pulsePiHWInit ⟨false, true⟩ 12 100 (1 / 2) (some 5) (0, 0)).map
      (fun st => ((hwFrequencySet st 20000).err, st.params.bursts,
        (hwFrequencySet st 20000).state.params.frequency))
      = .ok (none, some 5, 20000) := by
  decide

/-- C7 as amended (hardware frequency bounds): the hardware frequency setter
accepts a value exactly when it lies in `[0.1, 5_000_000]` Hz (given a valid
stored duty cycle), rejecting larger and smaller values with the
corresponding out-of-range errors — in particular 6_000_000 is rejected,
also when `start()` re-applies the setter; and the additional burst
restriction is enforced at construction only: constructing with a truthy
burst count and a frequency above 10000 Hz fails with the burst-frequency
error. -/
theorem hwFrequencyBounds :
    (∀ (s : HWState) (value : ℚ),
      0 ≤ s.params.dutyCycle → s.params.dutyCycle ≤ 1 →
      ((hwFrequencySet s value).err = none ↔ 1 / 10 ≤ value ∧ value ≤ 5000000))
    ∧ (∀ s : HWState, (hwFrequencySet s 6000000).err = some .hwFreqTooHigh)
    ∧ (∀ s : HWState, s.params.frequency = 6000000 →
        (hwStart s).err = some .hwFreqTooHigh)
    ∧ (∀ (env : HWEnv) (line : ℤ) (f dc : ℚ) (B : ℤ) (r0 : ℤ × ℤ),
        0 ≤ dc → dc ≤ 1 → B ≠ 0 → 10000 < f →
        pulsePiHWInit env line f dc (some B) r0 = .error .burstFreqTooHigh) := by
  refine ⟨?_, ?_, ?_, ?_⟩
  · intro s value hd0 hd1
    by_cases h1 : 5000000 < value
    · simp only [hwFrequencySet, if_pos h1]
      constructor
      · intro h
        exact absurd h (by simp)
      · rintro ⟨-, h⟩
        linarith
    · by_cases h2 : value < 1 / 10
      · simp only [hwFrequencySet, if_neg h1, if_pos h2]
        constructor
        · intro h
          exact absurd h (by simp)
        · rintro ⟨h, -⟩
          linarith
      · have hvne : value ≠ 0 := by
          intro h
          rw [h] at h2
          norm_num at h2
        simp only [hwFrequencySet, if_neg h1, if_neg h2,
          computeParams_ok s.params value s.params.dutyCycle s.params.bursts
            hvne hd0 hd1]
        exact ⟨fun _ => ⟨le_of_not_lt h2, le_of_not_lt h1⟩, fun _ => by trivial⟩
  · intro s
    have h6 : (5000000 : ℚ) < 6000000 := by norm_num
    simp [hwFrequencySet, h6]
  · intro s hfreq
    have h6 : (5000000 : ℚ) < 6000000 := by norm_num
    by_cases hb : pyTruthyRat s.burstTime = true <;>
      simp [hwStart, hwFrequencySet, hb, hfreq, h6]
  · intro env line f dc B r0 hd0 hd1 hB h10k
    have hfne : f ≠ 0 := by positivity
    unfold pulsePiHWInit
    rw [computeParams_ok defaultParams f dc (some B) hfne hd0 hd1]
    dsimp only
    rw [if_pos ⟨by simpa [pyTruthyInt] using hB, h10k⟩]

/-- Witness for C7: 6 MHz is rejected by the setter on a concrete device
state, and construction at 20 kHz with 5 bursts is rejected. -/
theorem hwFrequencyBounds_witness :
    ((0 : ℚ) ≤ 1 / 2 ∧ (1 / 2 : ℚ) ≤ 1 ∧ (5 : ℤ) ≠ 0 ∧ (10000 : ℚ) < 20000)
    ∧ ((hwFrequencySet ⟨(computeParams defaultParams 1000 (1 / 2) none).state,
          none, false, some 1000000, 1000000, 500000, 0⟩ 6000000).err
        = some .hwFreqTooHigh)
    ∧ pulsePiHWInit ⟨false, true⟩ 12 20000 (1 / 2) (some 5) (0, 0)
        = .error .burstFreqTooHigh :=
  ⟨⟨by norm_num, by norm_num, by norm_num, by norm_num⟩,
   hwFrequencyBounds.2.1 ⟨(computeParams defaultParams 1000 (1 / 2) none).state,
     none, false, some 1000000, 1000000, 500000, 0⟩,
   hwFrequencyBounds.2.2.2 ⟨false, true⟩ 12 20000 (1 / 2) 5 (0, 0)
     (by norm_num) (by norm_num) (by norm_num) (by norm_num)⟩

/-- C8 (hardware burst duration floor): for a finite burst count `B ≥ 1`
with valid parameters in the burst-capable range, the burst timer duration
is computed as `B * period - lowTime / 2`; when that duration is below the
0.00075 s floor, construction fails with the burst-too-short error instead
of arming the timer, and otherwise the stored timer duration is the computed
value minus the 0.00075 s settle margin. -/
theorem hwBurstFloor (env : HWEnv) (line : ℤ) (f dc : ℚ) (B : ℤ) (r0 : ℤ × ℤ)
    (hd0 : 0 ≤ dc) (hd1 : dc ≤ 1) (hf0 : 0 < f) (hf1 : f ≤ 10000) (hB : 1 ≤ B)
    (hline : ∃ ch, lineToPWMChannel env.isPi5 line = .ok ch) :
    (B * (1 / f) - 1 / f * (1 - dc) / 2 < 75 / 100000 →
      pulsePiHWInit env line f dc (some B) r0 = .error .burstTooShort)
    ∧ (75 / 100000 ≤ B * (1 / f) - 1 / f * (1 - dc) / 2 →
      env.deviceReady = true →
      ∃ st, pulsePiHWInit env line f dc (some B) r0 = .ok st
        ∧ st.burstTime
            = some (B * (1 / f) - 1 / f * (1 - dc) / 2 - 75 / 100000)) := by
  obtain ⟨ch, hch⟩ := hline
  have hfne : f ≠ 0 := ne_of_gt hf0
  have hnotB : ¬ (pyTruthyInt (some B) = true ∧ 10000 < f) := by
    rintro ⟨-, h⟩
    linarith
  have htB : pyTruthyInt (some B) = true := by
    simp [pyTruthyInt]
    omega
  constructor
  · intro hshort
    unfold pulsePiHWInit
    rw [computeParams_ok defaultParams f dc (some B) hfne hd0 hd1]
    dsimp only
    rw [if_neg hnotB, hch]
    dsimp only
    simp only [Option.getD_some]
    rw [if_pos htB, if_pos hshort]
  · intro hlong hdev
    unfold pulsePiHWInit
    rw [computeParams_ok defaultParams f dc (some B) hfne hd0 hd1]
    dsimp only
    rw [if_neg hnotB, hch]
    dsimp only
    simp only [Option.getD_some]
    rw [if_pos htB, if_neg (not_lt.mpr hlong)]
    dsimp only
    rw [if_pos hdev]
    exact ⟨_, rfl, rfl⟩

/-- Witness for C8: the spec's own instance, one burst at 10 kHz, duty cycle
1/2: the computed duration 0.000075 s is below the 0.00075 s floor and
construction fails with the burst-too-short error. -/
theorem hwBurstFloor_witness :
    ((0 : ℚ) ≤ 1 / 2 ∧ (1 / 2 : ℚ) ≤ 1 ∧ (0 : ℚ) < 10000
      ∧ (10000 : ℚ) ≤ 10000 ∧ (1 : ℤ) ≤ 1
      ∧ lineToPWMChannel false 12 = .ok 0
      ∧ ((1 : ℤ) * ((1 : ℚ) / 10000) - 1 / 10000 * (1 - 1 / 2) / 2 < 75 / 100000))
    ∧ pulsePiHWInit ⟨false, true⟩ 12 10000 (1 / 2) (some 1) (0, 0)
        = .error .burstTooShort :=
  ⟨⟨by norm_num, by norm_num, by norm_num, by norm_num, by norm_num, by decide,
    by norm_num⟩,
   (hwBurstFloor ⟨false, true⟩ 12 10000 (1 / 2) 1 (0, 0) (by norm_num)
      (by norm_num) (by norm_num) (by norm_num) (by norm_num)
      ⟨0, by decide⟩).1 (by norm_num)⟩

/-- C9 (software duty-cycle setter is unusable): on a freshly constructed
software pulse (continuous mode, no burst in flight), every attempt to set
the duty cycle — to 0, to 1, or to an intermediate value — raises an
`AttributeError`, because the setter's first statement reads
`self.__burstTime`, an attribute `_PulseSW` never assigns; the pin is never
driven and the intervals are never updated. -/
theorem swDutySetAttributeError :
    ((swInit .spec .low 100 (1 / 2) none).map fun s => (swDutyCycleSet s 0).err)
      = .ok (some .attributeError)
    ∧ ((swInit .spec .low 100 (1 / 2) none).map fun s => (swDutyCycleSet s 1).err)
      = .ok (some .attributeError)
    ∧ ((swInit .spec .low 100 (1 / 2) none).map fun s =>
        (swDutyCycleSet s (3 / 4)).err) = .ok (some .attributeError)
    ∧ ((swInit .spec .low 100 (1 / 2) none).map fun s =>
        (swDutyCycleSet s 0).state == s) = .ok true := by
  refine ⟨by decide, by decide, by decide, by decide⟩

/-- C10 (burst-count sentinel does not leak): the public `bursts` property
returns `None` for every stored non-positive burst count and the stored
value for every positive one; in particular the software backend's
replacement of `None` by `-1` is unobservable — constructing with
`bursts=None` stores `-1` internally and reading the property back yields
`None`. -/
theorem burstSentinelHidden :
    (∀ b : ℤ, (b ≤ 0 → burstsGet (some b) = none)
      ∧ (0 < b → burstsGet (some b) = some b))
    ∧ burstsGet none = none
    ∧ ((swInit .spec .low 100 (1 / 2) none).map fun s => s.params.bursts)
        = .ok (some (-1))
    ∧ ((swInit .spec .low 100 (1 / 2) none).map fun s => burstsGet s.params.bursts)
        = .ok none := by
  refine ⟨fun b => ⟨fun h => ?_, fun h => ?_⟩, rfl, by decide, by decide⟩
  · simp [burstsGet, h]
  · simp [burstsGet]
    omega

/-- Witness for C10: stored burst count -1 reads back as `None`, stored 7
reads back as 7. -/
theorem burstSentinelHidden_witness :
    ((-1 : ℤ) ≤ 0 ∧ (0 : ℤ) < 7)
    ∧ burstsGet (some (-1)) = none ∧ burstsGet (some 7) = some 7 :=
  ⟨⟨by norm_num, by norm_num⟩,
   (burstSentinelHidden.1 (-1)).1 (by norm_num),
   (burstSentinelHidden.1 7).2 (by norm_num)⟩

end Claims

end GPIOAL
